import Mathlib

/-!
Verification development for the Houseplant Comparison API backend
(`main.py`, `schemas.py`).  The data model and the request handlers are
shallowly embedded: Python dicts become association lists over a value
type `MVal`, the pydantic `Plant` model becomes a Lean structure with a
validation function, and the MongoDB filter built by `list_plants`
becomes an explicit `Filt` record together with a matching function for
the query operators the code uses (`$or`, `$regex` with the `i` option,
field equality, `$in`).
-/

namespace Houseplant

/-- Values stored in a document field.  `mStrList` covers the only list-valued
field the application uses (`tags`); `mOid` and `mDate` stand for the
datastore's object-identifier and datetime values. -/
inductive MVal where
  | mStr (s : String)
  | mBool (b : Bool)
  | mNum (q : ℚ)
  | mStrList (l : List String)
  | mOid (n : Nat)
  | mDate (n : Nat)
  | mNull
deriving DecidableEq

/-- A document: a Python dict with string keys in insertion order. -/
abbrev Doc := List (String × MVal)

/-- `d.get(k)`: first binding of `k`, `none` when the key is absent. -/
def dget (d : Doc) (k : String) : Option MVal :=
  match d with
  | [] => none
  | (k0, v0) :: rest => if k0 = k then some v0 else dget rest k

/-- `d[k] = v`: replace the existing binding in place, append when absent
(Python dicts keep insertion order on update). -/
def setKey (d : Doc) (k : String) (v : MVal) : Doc :=
  match d with
  | [] => [(k, v)]
  | (k0, v0) :: rest => if k0 = k then (k, v) :: rest else (k0, v0) :: setKey rest k v

/-- Python truthiness of a field value (`if d.get(k):`).  Object ids and
datetimes are always truthy; empty strings, empty lists, zero and `None`
are falsy. -/
def truthy : MVal → Bool
  | MVal.mStr s => !(s == "")
  | MVal.mBool b => b
  | MVal.mNum q => !(q == 0)
  | MVal.mStrList l => !l.isEmpty
  | MVal.mOid _ => true
  | MVal.mDate _ => true
  | MVal.mNull => false

/-- Python `str(v)`.  The exact rendering of non-string values is abstracted
(only the fact that the result is a string matters to the handlers). -/
def mvalStr : MVal → String
  | MVal.mStr s => s
  | MVal.mBool b => cond b "True" "False"
  | MVal.mNum q => toString q.num ++ "/" ++ toString q.den
  | MVal.mStrList l => String.intercalate ", " l
  | MVal.mOid n => toString n
  | MVal.mDate n => toString n
  | MVal.mNull => "None"

/-- Python `str(d.get(k))`: `str(None)` is the string `"None"`. -/
def pyStr (o : Option MVal) : String :=
  match o with
  | none => "None"
  | some v => mvalStr v

/-- How many elements `l[:limit]` keeps in Python: a non-negative bound is
used directly (clamped by `take`), a negative bound drops that many elements
from the end. -/
def pySliceCount (limit : Int) (len : Nat) : Nat :=
  if 0 ≤ limit then limit.toNat else len - (-limit).toNat

/-- Python slicing `l[:limit]`. -/
def pySlice {α : Type} (l : List α) (limit : Int) : List α :=
  l.take (pySliceCount limit l.length)

/-! ### Seed data (`_seed_plants`, main.py lines 125-187) -/

/-- The five curated seed records returned when no datastore is configured. -/
def _seed_plants : List Doc :=
  [ [("name", MVal.mStr "Monstera Deliciosa"),
     ("scientific_name", MVal.mStr "Monstera deliciosa"),
     ("description", MVal.mStr "Iconic split leaves, fast grower and forgiving."),
     ("image_url", MVal.mStr "https://images.unsplash.com/photo-1519681393784-d120267933ba?q=80&w=1200&auto=format&fit=crop"),
     ("light", MVal.mStr "bright"),
     ("water", MVal.mStr "moderate"),
     ("care_level", MVal.mStr "easy"),
     ("pet_friendly", MVal.mBool false),
     ("size", MVal.mStr "large"),
     ("tags", MVal.mStrList ["statement", "fast-growing"])],
    [("name", MVal.mStr "Snake Plant"),
     ("scientific_name", MVal.mStr "Sansevieria trifasciata"),
     ("description", MVal.mStr "Thrives on neglect, great for low light."),
     ("image_url", MVal.mStr "https://images.unsplash.com/photo-1587300003388-59208cc962cb?q=80&w=1200&auto=format&fit=crop"),
     ("light", MVal.mStr "low"),
     ("water", MVal.mStr "low"),
     ("care_level", MVal.mStr "easy"),
     ("pet_friendly", MVal.mBool false),
     ("size", MVal.mStr "medium"),
     ("tags", MVal.mStrList ["air-purifier", "beginner"])],
    [("name", MVal.mStr "ZZ Plant"),
     ("scientific_name", MVal.mStr "Zamioculcas zamiifolia"),
     ("description", MVal.mStr "Glossy leaves, tolerates low light and infrequent watering."),
     ("image_url", MVal.mStr "https://images.unsplash.com/photo-1620916566398-579615a6df65?q=80&w=1200&auto=format&fit=crop"),
     ("light", MVal.mStr "low"),
     ("water", MVal.mStr "low"),
     ("care_level", MVal.mStr "easy"),
     ("pet_friendly", MVal.mBool false),
     ("size", MVal.mStr "medium"),
     ("tags", MVal.mStrList ["hardy", "office"])],
    [("name", MVal.mStr "Pothos"),
     ("scientific_name", MVal.mStr "Epipremnum aureum"),
     ("description", MVal.mStr "Vining plant that adapts to many conditions."),
     ("image_url", MVal.mStr "https://images.unsplash.com/photo-1601482256584-5f934a95a204?q=80&w=1200&auto=format&fit=crop"),
     ("light", MVal.mStr "medium"),
     ("water", MVal.mStr "moderate"),
     ("care_level", MVal.mStr "easy"),
     ("pet_friendly", MVal.mBool false),
     ("size", MVal.mStr "medium"),
     ("tags", MVal.mStrList ["trailing", "versatile"])],
    [("name", MVal.mStr "Parlor Palm"),
     ("scientific_name", MVal.mStr "Chamaedorea elegans"),
     ("description", MVal.mStr "Pet-friendly palm that tolerates low light."),
     ("image_url", MVal.mStr "https://images.unsplash.com/photo-1501004318641-b39e6451bec6?q=80&w=1200&auto=format&fit=crop"),
     ("light", MVal.mStr "low"),
     ("water", MVal.mStr "moderate"),
     ("care_level", MVal.mStr "moderate"),
     ("pet_friendly", MVal.mBool true),
     ("size", MVal.mStr "medium"),
     ("tags", MVal.mStrList ["pet-safe", "palm"])] ]

/-! ### Case-insensitive regular-expression search (MongoDB `$regex` with `$options: "i"`)

`list_plants` passes the raw `q` parameter as a `$regex` pattern.  We model
the fragment of the PCRE dialect in which the only metacharacter is the
unescaped dot (which matches any character except a newline); every pattern
appearing in this development stays inside that fragment.  The `i` option is
modelled by comparing characters through `lcChar`. -/

/-- ASCII lowercasing of a character, as used for the `i` regex option. -/
def lcChar (c : Char) : Char :=
  if 'A' ≤ c ∧ c ≤ 'Z' then Char.ofNat (c.toNat + 32) else c

/-- Case-insensitive character comparison. -/
def eqCI (a b : Char) : Bool := lcChar a == lcChar b

/-- One element of a compiled pattern: a literal character or the dot. -/
inductive RChar where
  | lit (c : Char)
  | dot
deriving DecidableEq

/-- Compile a pattern string: an unescaped dot is the wildcard, every other
character is a literal. -/
def parsePat (p : String) : List RChar :=
  p.data.map (fun c => if c = '.' then RChar.dot else RChar.lit c)

/-- Does the pattern match a prefix of the character list? -/
def rmatchAt : List RChar → List Char → Bool
  | [], _ => true
  | _ :: _, [] => false
  | RChar.lit c :: ps, x :: xs => eqCI c x && rmatchAt ps xs
  | RChar.dot :: ps, x :: xs => (x != '\n') && rmatchAt ps xs

/-- Does the pattern match at some position (unanchored search)? -/
def rsearch (ps : List RChar) : List Char → Bool
  | [] => rmatchAt ps []
  | x :: xs => rmatchAt ps (x :: xs) || rsearch ps xs

/-- `$regex` with the `i` option: unanchored case-insensitive search. -/
def regexSearchCI (pat s : String) : Bool :=
  rsearch (parsePat pat) s.data

/-- Case-insensitive "is a prefix of" on character lists. -/
def prefixCI : List Char → List Char → Bool
  | [], _ => true
  | _ :: _, [] => false
  | c :: cs, x :: xs => eqCI c x && prefixCI cs xs

/-- Case-insensitive "occurs as a contiguous substring" on character lists. -/
def infixCI (p : List Char) : List Char → Bool
  | [] => prefixCI p []
  | x :: xs => prefixCI p (x :: xs) || infixCI p xs

/-- The spec's reading of the free-text criterion: `pat` appears as a
case-insensitive substring of `s`. -/
def substrCI (pat s : String) : Bool :=
  infixCI pat.data s.data

/-- Characters with a special meaning in the PCRE dialect `$regex` uses,
the opening and closing braces of the repetition quantifier included
(written with character-code escapes).  A pattern free of all of them is
matched literally. -/
def pcreMeta (c : Char) : Bool :=
  c ∈ ['.', '*', '+', '?', '(', ')', '[', ']', '\x7b', '\x7d', '^', '$', '|', '\\']

/-- A `q` parameter is regex-safe when it contains no PCRE metacharacter. -/
def qSafe (q : Option String) : Bool :=
  match q with
  | none => true
  | some s => s.data.all (fun c => !pcreMeta c)

/-! ### The filter built by `list_plants` (main.py lines 56-74) -/

/-- The shape of the MongoDB filter dict `list_plants` builds: one optional
clause per query parameter.  `qOr` holds the pattern of the three-way
`$or` of `$regex` clauses; `tagIn` holds the value of the `$in` clause on
`tags`. -/
structure Filt where
  qOr : Option String
  light : Option String
  water : Option String
  care_level : Option String
  pet_friendly : Option Bool
  size : Option String
  tagIn : Option String
deriving DecidableEq

/-- Python truthiness of an optional string parameter: `if q:` keeps the
clause only for a present, non-empty string. -/
def normStr (o : Option String) : Option String :=
  match o with
  | none => none
  | some s => if s = "" then none else some s

/-- The filter dict built by `list_plants` from its query parameters.
String parameters are guarded by truthiness (`if q:`), the boolean
`pet_friendly` by `is not None`. -/
def buildFilter (q light water care_level : Option String) (pet_friendly : Option Bool)
    (size tag : Option String) : Filt :=
  { qOr := normStr q, light := normStr light, water := normStr water,
    care_level := normStr care_level, pet_friendly := pet_friendly,
    size := normStr size, tagIn := normStr tag }

/-- The string content of a field, when the field is present and a string. -/
def strField (d : Doc) (k : String) : Option String :=
  match dget d k with
  | some (MVal.mStr s) => some s
  | _ => none

/-- The `$or` of `$regex` clauses over name, scientific name and description:
a missing or non-string field matches no regex. -/
def qClauseRegex (pat : Option String) (d : Doc) : Bool :=
  match pat with
  | none => true
  | some p =>
      (strField d "name").any (regexSearchCI p)
      || (strField d "scientific_name").any (regexSearchCI p)
      || (strField d "description").any (regexSearchCI p)

/-- The same three-way clause under the spec's substring reading. -/
def qClauseSub (pat : Option String) (d : Doc) : Bool :=
  match pat with
  | none => true
  | some p =>
      (strField d "name").any (substrCI p)
      || (strField d "scientific_name").any (substrCI p)
      || (strField d "description").any (substrCI p)

/-- MongoDB equality clause `{k: v}` on a string-valued field. -/
def eqClause (c : Option String) (k : String) (d : Doc) : Bool :=
  match c with
  | none => true
  | some v => dget d k == some (MVal.mStr v)

/-- MongoDB equality clause on the boolean `pet_friendly` field. -/
def boolClause (c : Option Bool) (d : Doc) : Bool :=
  match c with
  | none => true
  | some b => dget d "pet_friendly" == some (MVal.mBool b)

/-- MongoDB `{tags: {$in: [t]}}`: an array field matches when it contains
the value, a scalar field when it equals the value. -/
def tagClause (c : Option String) (d : Doc) : Bool :=
  match c with
  | none => true
  | some t =>
      match dget d "tags" with
      | some (MVal.mStrList l) => l.contains t
      | some (MVal.mStr s) => s == t
      | _ => false

/-- MongoDB semantics of the filter built by `list_plants`: the conjunction
of its clauses, with `q` interpreted as `$regex`. -/
def mongoMatch (f : Filt) (d : Doc) : Bool :=
  qClauseRegex f.qOr d && eqClause f.light "light" d && eqClause f.water "water" d
  && eqClause f.care_level "care_level" d && boolClause f.pet_friendly d
  && eqClause f.size "size" d && tagClause f.tagIn d

/-- The spec's predicate (section 4.1), stated from its words: a record
matches when it satisfies every supplied criterion, the free-text criterion
being case-insensitive substring containment in one of name, scientific
name or description. -/
def specMatches (q light water care_level : Option String) (pet_friendly : Option Bool)
    (size tag : Option String) (d : Doc) : Bool :=
  qClauseSub (normStr q) d && eqClause (normStr light) "light" d
  && eqClause (normStr water) "water" d && eqClause (normStr care_level) "care_level" d
  && boolClause pet_friendly d && eqClause (normStr size) "size" d
  && tagClause (normStr tag) d

/-! ### The GET /plants handler -/

/-- Modelled from the spec: `database.get_documents` (the repository's
`database.py` is not among the sources) "returns up to `limit` matching
records in the datastore's natural order". -/
def get_documents (store : List Doc) (f : Filt) (limit : Int) : List Doc :=
  (store.filter (fun d => mongoMatch f d)).take limit.toNat

/-- The per-document serialization loop of `list_plants` (lines 78-81):
`d[k] = str(d[k])` guarded by `if d.get(k):`. -/
def stringifyIfTruthy (d : Doc) (k : String) : Doc :=
  match dget d k with
  | some v => if truthy v then setKey d k (MVal.mStr (mvalStr v)) else d
  | none => d

/-- `d["_id"] = str(d.get("_id"))` followed by the two guarded timestamp
conversions. -/
def serializeDoc (d : Doc) : Doc :=
  stringifyIfTruthy
    (stringifyIfTruthy (setKey d "_id" (MVal.mStr (pyStr (dget d "_id")))) "created_at")
    "updated_at"

/-- `GET /plants` (main.py lines 40-82).  With no datastore configured the
seed list is returned truncated with Python slicing; otherwise the built
filter is executed and each returned document has its identifier and
timestamps rendered as strings. -/
def list_plants (dbs : Option (List Doc)) (q light water care_level : Option String)
    (pet_friendly : Option Bool) (size tag : Option String) (limit : Int) : List Doc :=
  match dbs with
  | none => pySlice _seed_plants limit
  | some store =>
      let filt := buildFilter q light water care_level pet_friendly size tag
      (get_documents store filt limit).map serializeDoc

/-! ### The Plant schema (schemas.py lines 44-73) -/

/-- `LightLevel = Literal['low', 'medium', 'bright']`. -/
inductive LightLevel where
  | low | medium | bright
deriving DecidableEq

/-- `CareLevel = Literal['easy', 'moderate', 'advanced']`. -/
inductive CareLevel where
  | easy | moderate | advanced
deriving DecidableEq

/-- `WaterNeed = Literal['low', 'moderate', 'high']`. -/
inductive WaterNeed where
  | low | moderate | high
deriving DecidableEq

/-- `SizeClass = Literal['small', 'medium', 'large']`. -/
inductive SizeClass where
  | small | medium | large
deriving DecidableEq

def lightStr : LightLevel → String
  | LightLevel.low => "low"
  | LightLevel.medium => "medium"
  | LightLevel.bright => "bright"

def careStr : CareLevel → String
  | CareLevel.easy => "easy"
  | CareLevel.moderate => "moderate"
  | CareLevel.advanced => "advanced"

def waterStr : WaterNeed → String
  | WaterNeed.low => "low"
  | WaterNeed.moderate => "moderate"
  | WaterNeed.high => "high"

def sizeStr : SizeClass → String
  | SizeClass.small => "small"
  | SizeClass.medium => "medium"
  | SizeClass.large => "large"

/-- The literal set of `LightLevel`. -/
def lightLiterals : List String := ["low", "medium", "bright"]

/-- The literal set of `CareLevel`. -/
def careLiterals : List String := ["easy", "moderate", "advanced"]

/-- The literal set of `WaterNeed`. -/
def waterLiterals : List String := ["low", "moderate", "high"]

/-- The literal set of `SizeClass`. -/
def sizeLiterals : List String := ["small", "medium", "large"]

def parseLight (s : String) : Option LightLevel :=
  if s = "low" then some LightLevel.low
  else if s = "medium" then some LightLevel.medium
  else if s = "bright" then some LightLevel.bright
  else none

def parseCare (s : String) : Option CareLevel :=
  if s = "easy" then some CareLevel.easy
  else if s = "moderate" then some CareLevel.moderate
  else if s = "advanced" then some CareLevel.advanced
  else none

def parseWater (s : String) : Option WaterNeed :=
  if s = "low" then some WaterNeed.low
  else if s = "moderate" then some WaterNeed.moderate
  else if s = "high" then some WaterNeed.high
  else none

def parseSize (s : String) : Option SizeClass :=
  if s = "small" then some SizeClass.small
  else if s = "medium" then some SizeClass.medium
  else if s = "large" then some SizeClass.large
  else none

/-- The pydantic `Plant` model (schemas.py lines 49-73).  Numeric fields
are modelled over ℚ; the well-formedness of `image_url` as a URL is not
re-modelled (no claim concerns it). -/
structure Plant where
  name : String
  scientific_name : Option String := none
  description : Option String := none
  image_url : Option String := none
  light : LightLevel
  water : WaterNeed
  care_level : CareLevel
  pet_friendly : Bool := false
  size : SizeClass := SizeClass.medium
  humidity : Option String := none
  placement : Option String := none
  growth_rate : Option String := none
  ideal_temp_min_c : Option ℚ := none
  ideal_temp_max_c : Option ℚ := none
  price : Option ℚ := none
  tags : Option (List String) := none
deriving DecidableEq

/-- A request body for POST /plants before validation: every field of the
`Plant` model, each possibly absent. -/
structure RawPlant where
  name : Option String := none
  scientific_name : Option String := none
  description : Option String := none
  image_url : Option String := none
  light : Option String := none
  water : Option String := none
  care_level : Option String := none
  pet_friendly : Option Bool := none
  size : Option String := none
  humidity : Option String := none
  placement : Option String := none
  growth_rate : Option String := none
  ideal_temp_min_c : Option ℚ := none
  ideal_temp_max_c : Option ℚ := none
  price : Option ℚ := none
  tags : Option (List String) := none
deriving DecidableEq

/-- Pydantic validation of a request body against the `Plant` model:
`name`, `light`, `water` and `care_level` are required, the enum fields
must hit their literal set, `size` defaults to medium, `pet_friendly`
defaults to false, `price` must be non-negative when present (`ge=0`),
and the remaining optional fields pass through. -/
def validatePlant (r : RawPlant) : Option Plant :=
  r.name.bind fun name =>
  (r.light.bind parseLight).bind fun light =>
  (r.water.bind parseWater).bind fun water =>
  (r.care_level.bind parseCare).bind fun care =>
  (match r.size with
   | none => some SizeClass.medium
   | some ss => parseSize ss).bind fun size =>
  (match r.price with
   | none => some (none : Option ℚ)
   | some pr => if 0 ≤ pr then some (some pr) else none).bind fun price =>
  some { name := name, scientific_name := r.scientific_name,
         description := r.description, image_url := r.image_url,
         light := light, water := water, care_level := care,
         pet_friendly := r.pet_friendly.getD false, size := size,
         humidity := r.humidity, placement := r.placement,
         growth_rate := r.growth_rate,
         ideal_temp_min_c := r.ideal_temp_min_c,
         ideal_temp_max_c := r.ideal_temp_max_c,
         price := price, tags := r.tags }

/-! ### The POST /plants handler -/

def optStrVal (o : Option String) : MVal :=
  match o with
  | none => MVal.mNull
  | some s => MVal.mStr s

def optNumVal (o : Option ℚ) : MVal :=
  match o with
  | none => MVal.mNull
  | some q => MVal.mNum q

/-- The document persisted for a validated plant, with the generated
identifier and the creation/update timestamps. -/
def plantToDoc (p : Plant) (oid : Nat) (now : Nat) : Doc :=
  [("_id", MVal.mOid oid),
   ("name", MVal.mStr p.name),
   ("scientific_name", optStrVal p.scientific_name),
   ("description", optStrVal p.description),
   ("image_url", optStrVal p.image_url),
   ("light", MVal.mStr (lightStr p.light)),
   ("water", MVal.mStr (waterStr p.water)),
   ("care_level", MVal.mStr (careStr p.care_level)),
   ("pet_friendly", MVal.mBool p.pet_friendly),
   ("size", MVal.mStr (sizeStr p.size)),
   ("humidity", optStrVal p.humidity),
   ("placement", optStrVal p.placement),
   ("growth_rate", optStrVal p.growth_rate),
   ("ideal_temp_min_c", optNumVal p.ideal_temp_min_c),
   ("ideal_temp_max_c", optNumVal p.ideal_temp_max_c),
   ("price", optNumVal p.price),
   ("tags", match p.tags with
            | none => MVal.mNull
            | some l => MVal.mStrList l),
   ("created_at", MVal.mDate now),
   ("updated_at", MVal.mDate now)]

/-- Modelled from the spec: `database.create_document` (the repository's
`database.py` is not among the sources) "assigns a generated identifier and
creation/update timestamps, persists it, and returns the identifier". -/
def create_document (store : List Doc) (p : Plant) (now : Nat) : List Doc × Nat :=
  let oid := store.length
  (store ++ [plantToDoc p oid now], oid)

/-- Outcome of a POST /plants request. -/
inductive PostResult where
  | clientError (status : Nat)
  | serviceError (status : Nat)
  | created (id : String)
deriving DecidableEq

/-- The `create_plant` handler body (main.py lines 84-89): with no
datastore configured it raises HTTP 503 without touching anything,
otherwise it persists the validated plant and returns the identifier. -/
def create_plant (dbs : Option (List Doc)) (now : Nat) (p : Plant) :
    PostResult × Option (List Doc) :=
  match dbs with
  | none => (PostResult.serviceError 503, none)
  | some store =>
      let r := create_document store p now
      (PostResult.created (toString r.2), some r.1)

/-- The full POST /plants route: FastAPI validates the body against the
`Plant` schema before the handler runs, answering HTTP 422 on failure. -/
def post_plants (dbs : Option (List Doc)) (now : Nat) (raw : RawPlant) :
    PostResult × Option (List Doc) :=
  match validatePlant raw with
  | none => (PostResult.clientError 422, dbs)
  | some p => create_plant dbs now p

/-! ### The GET /schema endpoint -/

/-- The shape of a property in the generated JSON schema, restricted to
what the claims inspect: enum-constrained string properties are recorded
with their literal values. -/
inductive PropSchema where
  | strEnum (values : List String)
  | str
  | boolean
  | number
  | strList
  | anyUrl
deriving DecidableEq

/-- Modelled from pydantic's `Plant.model_json_schema()`: the properties
of the generated JSON schema, each `Literal` field carrying its enum of
allowed values. -/
def plantSchemaProperties : List (String × PropSchema) :=
  [("name", PropSchema.str),
   ("scientific_name", PropSchema.str),
   ("description", PropSchema.str),
   ("image_url", PropSchema.anyUrl),
   ("light", PropSchema.strEnum lightLiterals),
   ("water", PropSchema.strEnum waterLiterals),
   ("care_level", PropSchema.strEnum careLiterals),
   ("pet_friendly", PropSchema.boolean),
   ("size", PropSchema.strEnum sizeLiterals),
   ("humidity", PropSchema.str),
   ("placement", PropSchema.str),
   ("growth_rate", PropSchema.str),
   ("ideal_temp_min_c", PropSchema.number),
   ("ideal_temp_max_c", PropSchema.number),
   ("price", PropSchema.number),
   ("tags", PropSchema.strList)]

/-- `GET /schema` (main.py lines 25-29): the Plant schema under the key
"plant". -/
def get_schema : List (String × List (String × PropSchema)) :=
  [("plant", plantSchemaProperties)]

/-! ### Helper lemmas -/

theorem seed_length : _seed_plants.length = 5 := rfl

theorem rmatchAt_lit (l : List Char) (s : List Char) :
    rmatchAt (l.map RChar.lit) s = prefixCI l s := by
  induction l generalizing s with
  | nil => cases s <;> rfl
  | cons c cs ih =>
      cases s with
      | nil => rfl
      | cons x xs => simp [rmatchAt, prefixCI, ih]

theorem rsearch_lit (l : List Char) (s : List Char) :
    rsearch (l.map RChar.lit) s = infixCI l s := by
  induction s with
  | nil => simp [rsearch, infixCI, rmatchAt_lit]
  | cons x xs ih => simp [rsearch, infixCI, rmatchAt_lit, ih]

theorem parsePat_lit (p : String) (h : ∀ c ∈ p.data, pcreMeta c = false) :
    parsePat p = p.data.map RChar.lit := by
  unfold parsePat
  refine List.map_congr_left (fun c hc => ?_)
  have hdot : c ≠ '.' := by
    intro hceq
    have := h c hc
    rw [hceq] at this
    simp [pcreMeta] at this
  simp [hdot]

theorem regex_eq_substr (p : String) (h : ∀ c ∈ p.data, pcreMeta c = false)
    (s : String) : regexSearchCI p s = substrCI p s := by
  unfold regexSearchCI substrCI
  rw [parsePat_lit p h, rsearch_lit]

theorem qClause_eq (q : Option String) (hq : qSafe q = true) (d : Doc) :
    qClauseRegex (normStr q) d = qClauseSub (normStr q) d := by
  cases q with
  | none => rfl
  | some s =>
      have hmeta : ∀ c ∈ s.data, pcreMeta c = false := by
        intro c hc
        have := (List.all_eq_true.mp hq) c hc
        simpa using this
      have hfun : regexSearchCI s = substrCI s :=
        funext (fun t => regex_eq_substr s hmeta t)
      by_cases hs : s = ""
      · simp only [normStr, if_pos hs]
        rfl
      · simp only [normStr, if_neg hs, qClauseRegex, qClauseSub, hfun]

theorem dget_setKey_self (d : Doc) (k : String) (v : MVal) :
    dget (setKey d k v) k = some v := by
  induction d with
  | nil => simp [setKey, dget]
  | cons kv rest ih =>
      obtain ⟨k0, v0⟩ := kv
      by_cases h : k0 = k <;> simp [setKey, dget, h, ih]

theorem dget_setKey_other (d : Doc) (k k' : String) (v : MVal) (hkk : k ≠ k') :
    dget (setKey d k v) k' = dget d k' := by
  induction d with
  | nil => simp [setKey, dget, hkk]
  | cons kv rest ih =>
      obtain ⟨k0, v0⟩ := kv
      by_cases h : k0 = k
      · subst h
        simp [setKey, dget, hkk]
      · simp [setKey, dget, h, ih]

theorem dget_stringify_other (d : Doc) (k k' : String) (hkk : k ≠ k') :
    dget (stringifyIfTruthy d k) k' = dget d k' := by
  unfold stringifyIfTruthy
  cases hv : dget d k with
  | none => rfl
  | some v =>
      by_cases ht : truthy v = true
      · simp [ht, dget_setKey_other _ _ _ _ hkk]
      · simp [ht]

/-- Fields other than the three rewritten keys survive serialization. -/
theorem dget_serialize_other (d : Doc) (k : String)
    (h1 : k ≠ "_id") (h2 : k ≠ "created_at") (h3 : k ≠ "updated_at") :
    dget (serializeDoc d) k = dget d k := by
  unfold serializeDoc
  rw [dget_stringify_other _ _ _ (fun h => h3 h.symm),
      dget_stringify_other _ _ _ (fun h => h2 h.symm),
      dget_setKey_other _ _ _ _ (fun h => h1 h.symm)]

/-- A document whose timestamp field, when present, is a datastore datetime. -/
def tsOkAt (d : Doc) (k : String) : Bool :=
  match dget d k with
  | none => true
  | some (MVal.mDate _) => true
  | some _ => false

/-- Both timestamp fields are absent or datastore datetimes. -/
def tsOk (d : Doc) : Bool := tsOkAt d "created_at" && tsOkAt d "updated_at"

theorem dget_stringify_self (d : Doc) (k : String) :
    dget (stringifyIfTruthy d k) k =
      match dget d k with
      | none => none
      | some v => if truthy v then some (MVal.mStr (mvalStr v)) else some v := by
  unfold stringifyIfTruthy
  cases hv : dget d k with
  | none => simp [hv]
  | some v =>
      by_cases ht : truthy v = true
      · simp [ht, dget_setKey_self]
      · simp [ht, hv]

/-- After serialization the identifier is a string and each timestamp,
when present, is a string. -/
theorem serialize_fields (d : Doc) (h : tsOk d = true) :
    (∃ s, dget (serializeDoc d) "_id" = some (MVal.mStr s))
    ∧ (∀ v, dget (serializeDoc d) "created_at" = some v → ∃ s, v = MVal.mStr s)
    ∧ (∀ v, dget (serializeDoc d) "updated_at" = some v → ∃ s, v = MVal.mStr s) := by
  unfold tsOk at h
  have hca : tsOkAt d "created_at" = true := by
    cases hc : tsOkAt d "created_at" <;> simp [hc] at h ⊢
  have hua : tsOkAt d "updated_at" = true := by
    cases hc : tsOkAt d "updated_at" <;> simp [hc] at h ⊢
  refine ⟨?_, ?_, ?_⟩
  · refine ⟨pyStr (dget d "_id"), ?_⟩
    unfold serializeDoc
    rw [dget_stringify_other _ _ _ (by decide),
        dget_stringify_other _ _ _ (by decide),
        dget_setKey_self]
  · intro v hv
    unfold serializeDoc at hv
    rw [dget_stringify_other _ _ _ (by decide), dget_stringify_self,
        dget_setKey_other _ _ _ _ (by decide)] at hv
    unfold tsOkAt at hca
    cases hc : dget d "created_at" with
    | none => rw [hc] at hv; cases hv
    | some w =>
        rw [hc] at hca hv
        cases w with
        | mDate n => simp [truthy] at hv; exact ⟨mvalStr (MVal.mDate n), hv.symm⟩
        | mStr s => simp at hca
        | mBool b => simp at hca
        | mNum q => simp at hca
        | mStrList l => simp at hca
        | mOid n => simp at hca
        | mNull => simp at hca
  · intro v hv
    unfold serializeDoc at hv
    rw [dget_stringify_self, dget_stringify_other _ _ _ (by decide),
        dget_setKey_other _ _ _ _ (by decide)] at hv
    unfold tsOkAt at hua
    cases hc : dget d "updated_at" with
    | none => rw [hc] at hv; cases hv
    | some w =>
        rw [hc] at hua hv
        cases w with
        | mDate n => simp [truthy] at hv; exact ⟨mvalStr (MVal.mDate n), hv.symm⟩
        | mStr s => simp at hua
        | mBool b => simp at hua
        | mNum q => simp at hua
        | mStrList l => simp at hua
        | mOid n => simp at hua
        | mNull => simp at hua

theorem parseLight_isSome_iff (s : String) :
    (parseLight s).isSome = true ↔ s ∈ lightLiterals := by
  unfold parseLight lightLiterals
  split_ifs with h1 h2 h3 <;> simp_all

theorem parseWater_isSome_iff (s : String) :
    (parseWater s).isSome = true ↔ s ∈ waterLiterals := by
  unfold parseWater waterLiterals
  split_ifs with h1 h2 h3 <;> simp_all

theorem parseCare_isSome_iff (s : String) :
    (parseCare s).isSome = true ↔ s ∈ careLiterals := by
  unfold parseCare careLiterals
  split_ifs with h1 h2 h3 <;> simp_all

theorem parseSize_isSome_iff (s : String) :
    (parseSize s).isSome = true ↔ s ∈ sizeLiterals := by
  unfold parseSize sizeLiterals
  split_ifs with h1 h2 h3 <;> simp_all

/-- Inversion of pydantic validation: what a successful validation says
about the request body and the resulting record. -/
theorem validate_inv (raw : RawPlant) (p : Plant)
    (h : validatePlant raw = some p) :
    raw.name = some p.name
    ∧ (∃ ls, raw.light = some ls ∧ parseLight ls = some p.light)
    ∧ (∃ ws, raw.water = some ws ∧ parseWater ws = some p.water)
    ∧ (∃ cs, raw.care_level = some cs ∧ parseCare cs = some p.care_level)
    ∧ ((raw.size = none ∧ p.size = SizeClass.medium)
        ∨ (∃ ss, raw.size = some ss ∧ parseSize ss = some p.size))
    ∧ ((raw.price = none ∧ p.price = none)
        ∨ (∃ pr, raw.price = some pr ∧ 0 ≤ pr ∧ p.price = some pr))
    ∧ p.ideal_temp_min_c = raw.ideal_temp_min_c
    ∧ p.ideal_temp_max_c = raw.ideal_temp_max_c := by
  unfold validatePlant at h
  rw [Option.bind_eq_some] at h
  obtain ⟨name, hname, h⟩ := h
  rw [Option.bind_eq_some] at h
  obtain ⟨light, hlight, h⟩ := h
  rw [Option.bind_eq_some] at hlight
  obtain ⟨ls, hls, hlp⟩ := hlight
  rw [Option.bind_eq_some] at h
  obtain ⟨water, hwater, h⟩ := h
  rw [Option.bind_eq_some] at hwater
  obtain ⟨ws, hws, hwp⟩ := hwater
  rw [Option.bind_eq_some] at h
  obtain ⟨care, hcare, h⟩ := h
  rw [Option.bind_eq_some] at hcare
  obtain ⟨cs, hcs, hcp⟩ := hcare
  rw [Option.bind_eq_some] at h
  obtain ⟨size, hsize, h⟩ := h
  rw [Option.bind_eq_some] at h
  obtain ⟨price, hprice, h⟩ := h
  injection h with h
  subst h
  refine ⟨hname, ⟨ls, hls, hlp⟩, ⟨ws, hws, hwp⟩, ⟨cs, hcs, hcp⟩, ?_, ?_, rfl, rfl⟩
  · cases hrs : raw.size with
    | none => rw [hrs] at hsize; injection hsize with hsize; exact Or.inl ⟨rfl, hsize.symm⟩
    | some ss => rw [hrs] at hsize; exact Or.inr ⟨ss, rfl, hsize⟩
  · cases hrp : raw.price with
    | none => rw [hrp] at hprice; injection hprice with hprice; exact Or.inl ⟨rfl, hprice.symm⟩
    | some pr =>
        rw [hrp] at hprice
        have hprice2 : (if (0 : ℚ) ≤ pr then some (some pr) else none) = some price :=
          hprice
        by_cases hge : (0 : ℚ) ≤ pr
        · rw [if_pos hge] at hprice2
          injection hprice2 with hprice2
          exact Or.inr ⟨pr, rfl, hge, hprice2.symm⟩
        · rw [if_neg hge] at hprice2
          cases hprice2

/-! ### Concrete fixtures for counterexamples and witnesses -/

/-- The seed records whose light field is "low" (the spec's reading of
`GET /plants?light=low` over the fallback). -/
def seedLightLow : List Doc :=
  _seed_plants.filter (fun d => dget d "light" == some (MVal.mStr "low"))

/-- A request body with every field absent (in particular no `name`). -/
def rawEmpty : RawPlant := {}

/-- A request body that passes schema validation. -/
def rawValid : RawPlant :=
  { name := some "Boston Fern", light := some "low", water := some "high",
    care_level := some "moderate" }

/-- The record `rawValid` validates to. -/
def pValid : Plant :=
  { name := "Boston Fern", light := LightLevel.low, water := WaterNeed.high,
    care_level := CareLevel.moderate }

/-- A request body whose light value is outside the literal set. -/
def rawBadLight : RawPlant :=
  { name := some "Boston Fern", light := some "purple", water := some "high",
    care_level := some "moderate" }

/-- A request body with a negative price. -/
def rawBadPrice : RawPlant :=
  { name := some "Boston Fern", light := some "low", water := some "high",
    care_level := some "moderate", price := some (-5 : ℚ) }

/-- A stored document with well-formed identifier and timestamps. -/
def demoDoc : Doc :=
  [("_id", MVal.mOid 7), ("name", MVal.mStr "Fern"), ("light", MVal.mStr "low"),
   ("created_at", MVal.mDate 5), ("updated_at", MVal.mDate 5)]

/-- A stored document violating the enum invariant (light "purple"). -/
def badLightDoc : Doc :=
  [("_id", MVal.mOid 3), ("name", MVal.mStr "Weird"), ("light", MVal.mStr "purple")]

/-! ### Claims -/

/-- C1 (counterexample): the predicate built by `list_plants` does not
match records by case-insensitive substring: `q` is passed as a `$regex`
pattern, so `q = "."` matches the name "A" although "." is not a substring
of it. -/
theorem c1_substring_counterexample :
    mongoMatch (buildFilter (some ".") none none none none none none)
        [("name", MVal.mStr "A")]
      ≠ specMatches (some ".") none none none none none none
        [("name", MVal.mStr "A")] := by
  decide

/-- C1 (amended): for every combination of supplied criteria whose
free-text criterion contains no regex metacharacter, the predicate built
by `list_plants` matches a record if and only if the record satisfies
every supplied criterion (logical AND across fields), the free-text
criterion matching as a case-insensitive substring of name, scientific
name or description (logical OR across those three); in general `q` is
interpreted as a case-insensitive regular expression, not as a literal
substring.  Supplying no criteria matches every record. -/
theorem c1_filter_conjunctive (q light water care_level : Option String)
    (pet_friendly : Option Bool) (size tag : Option String) (d : Doc)
    (hq : qSafe q = true) :
    mongoMatch (buildFilter q light water care_level pet_friendly size tag) d
      = specMatches q light water care_level pet_friendly size tag d
    ∧ mongoMatch (buildFilter none none none none none none none) d = true := by
  constructor
  · simp only [mongoMatch, specMatches, buildFilter]
    rw [qClause_eq q hq d]
  · rfl

/-- C1 (witness): the amended theorem applied at a concrete safe query
and record. -/
theorem c1_filter_witness :
    qSafe (some "snake") = true
    ∧ mongoMatch (buildFilter (some "snake") none none none none none none)
        [("name", MVal.mStr "Snake Plant")]
      = specMatches (some "snake") none none none none none none
        [("name", MVal.mStr "Snake Plant")] :=
  ⟨by decide,
   (c1_filter_conjunctive (some "snake") none none none none none none
      [("name", MVal.mStr "Snake Plant")] (by decide)).1⟩

/-- C2: with no datastore configured, `GET /plants` returns the static
seed data unfiltered (every filter parameter is ignored), truncated to
`limit`: with the default limit 50 this is exactly the 5 fixed seed
records, the first having name "Monstera Deliciosa" and light "bright". -/
theorem c2_seed_unfiltered (q light water care_level : Option String)
    (pet_friendly : Option Bool) (size tag : Option String) :
    list_plants none q light water care_level pet_friendly size tag 50 = _seed_plants
    ∧ (∀ limit : Int,
        list_plants none q light water care_level pet_friendly size tag limit
          = pySlice _seed_plants limit)
    ∧ _seed_plants.length = 5
    ∧ _seed_plants.head?.map (fun d => dget d "name")
        = some (some (MVal.mStr "Monstera Deliciosa"))
    ∧ _seed_plants.head?.map (fun d => dget d "light")
        = some (some (MVal.mStr "bright")) :=
  ⟨rfl, fun _ => rfl, rfl, rfl, rfl⟩

/-- C3 (counterexample): with no datastore configured,
`GET /plants?light=low` does not return only the seed records whose light
field is "low": the seed fallback ignores the filter. -/
theorem c3_light_counterexample :
    list_plants none none (some "low") none none none none none 50
      ≠ seedLightLow := by
  decide

/-- C3 (amended): with no datastore configured, `GET /plants?light=low`
returns all 5 seed records truncated to `limit` — the light filter is
ignored on the seed-fallback path.  The seed records whose light field is
"low" are Snake Plant, ZZ Plant and Parlor Palm, but the other two are
returned as well. -/
theorem c3_seed_ignores_light :
    list_plants none none (some "low") none none none none none 50 = _seed_plants
    ∧ (∀ limit : Int,
        list_plants none none (some "low") none none none none none limit
          = pySlice _seed_plants limit)
    ∧ seedLightLow.map (fun d => dget d "name")
        = [some (MVal.mStr "Snake Plant"), some (MVal.mStr "ZZ Plant"),
           some (MVal.mStr "Parlor Palm")]
    ∧ _seed_plants ≠ seedLightLow := by
  refine ⟨rfl, fun _ => rfl, by decide, by decide⟩

/-- C4 (counterexample): a request body that fails schema validation is
answered with HTTP 422, not 503, even when no datastore is configured —
FastAPI validates the body before the handler's datastore check runs. -/
theorem c4_invalid_body_counterexample :
    (post_plants none 0 rawEmpty).1 ≠ PostResult.serviceError 503 := by
  decide

/-- C4 (amended): for every request body that passes schema validation,
`POST /plants` with no datastore configured fails with HTTP 503; a body
failing validation is rejected with HTTP 422 before the datastore check.
In both cases no record is created and the datastore state is unchanged
(`create_document` is never invoked). -/
theorem c4_no_db_503 (raw : RawPlant) (now : Nat) :
    ((validatePlant raw).isSome = true →
      post_plants none now raw = (PostResult.serviceError 503, none))
    ∧ (post_plants none now raw).2 = none
    ∧ ((validatePlant raw).isSome = false →
      post_plants none now raw = (PostResult.clientError 422, none)) := by
  cases h : validatePlant raw with
  | none =>
      refine ⟨?_, ?_, ?_⟩
      · intro hs; simp at hs
      · simp [post_plants, h]
      · intro _; simp [post_plants, h]
  | some p =>
      refine ⟨?_, ?_, ?_⟩
      · intro _; simp [post_plants, h, create_plant]
      · simp [post_plants, h, create_plant]
      · intro hs; simp at hs

/-- C4 (witness): the amended theorem at a valid and at an invalid body. -/
theorem c4_no_db_witness :
    post_plants none 0 rawValid = (PostResult.serviceError 503, none)
    ∧ post_plants none 0 rawEmpty = (PostResult.clientError 422, none) :=
  ⟨(c4_no_db_503 rawValid 0).1 (by decide),
   (c4_no_db_503 rawEmpty 0).2.2 (by decide)⟩

/-- C5: a POST /plants body missing the required name, or with an enum
value outside its literal set, or with a negative price, is rejected with
HTTP 422 and no record is created (the datastore state is unchanged). -/
theorem c5_validation_rejects (dbs : Option (List Doc)) (now : Nat)
    (raw : RawPlant) :
    (raw.name = none →
      post_plants dbs now raw = (PostResult.clientError 422, dbs))
    ∧ (∀ s, raw.light = some s → s ∉ lightLiterals →
      post_plants dbs now raw = (PostResult.clientError 422, dbs))
    ∧ (∀ pr : ℚ, raw.price = some pr → pr < 0 →
      post_plants dbs now raw = (PostResult.clientError 422, dbs)) := by
  have bad : validatePlant raw = none →
      post_plants dbs now raw = (PostResult.clientError 422, dbs) := by
    intro h; simp [post_plants, h]
  refine ⟨?_, ?_, ?_⟩
  · intro hn
    cases h : validatePlant raw with
    | none => exact bad h
    | some p =>
        obtain ⟨hname, _⟩ := validate_inv raw p h
        rw [hn] at hname; cases hname
  · intro s hs hmem
    cases h : validatePlant raw with
    | none => exact bad h
    | some p =>
        obtain ⟨_, ⟨ls, hls, hlp⟩, _⟩ := validate_inv raw p h
        rw [hs] at hls
        injection hls with hls
        subst hls
        exact absurd ((parseLight_isSome_iff s).mp (by rw [hlp]; rfl)) hmem
  · intro pr hpr hneg
    cases h : validatePlant raw with
    | none => exact bad h
    | some p =>
        obtain ⟨_, _, _, _, _, hp, _⟩ := validate_inv raw p h
        cases hp with
        | inl hnone => rw [hpr] at hnone; cases hnone.1
        | inr hsome =>
            obtain ⟨pr2, hpr2, hge, _⟩ := hsome
            rw [hpr] at hpr2
            injection hpr2 with hpe
            rw [← hpe] at hge
            exact absurd hge (not_le.mpr hneg)

/-- C5 (witness): the theorem at a body missing name, one with light
outside its literal set, and one with a negative price. -/
theorem c5_validation_witness :
    post_plants none 0 rawEmpty = (PostResult.clientError 422, none)
    ∧ post_plants (some []) 0 rawBadLight = (PostResult.clientError 422, some [])
    ∧ post_plants (some []) 0 rawBadPrice = (PostResult.clientError 422, some []) :=
  ⟨(c5_validation_rejects none 0 rawEmpty).1 rfl,
   (c5_validation_rejects (some []) 0 rawBadLight).2.1 "purple" rfl (by decide),
   (c5_validation_rejects (some []) 0 rawBadPrice).2.2 (-5) rfl (by norm_num)⟩

/-- C6: every record accepted by schema validation satisfies the
data-model invariant — the enum fields land in their literal sets, size
defaults to medium, a present price is non-negative and the temperature
bounds pass through unconstrained; the read path performs no re-check
(a stored record with light "purple" is returned as is). -/
theorem c6_schema_invariant (raw : RawPlant) (p : Plant)
    (h : validatePlant raw = some p) :
    lightStr p.light ∈ lightLiterals
    ∧ waterStr p.water ∈ waterLiterals
    ∧ careStr p.care_level ∈ careLiterals
    ∧ sizeStr p.size ∈ sizeLiterals
    ∧ (raw.size = none → p.size = SizeClass.medium)
    ∧ (∀ pr, p.price = some pr → 0 ≤ pr)
    ∧ p.ideal_temp_min_c = raw.ideal_temp_min_c
    ∧ p.ideal_temp_max_c = raw.ideal_temp_max_c
    ∧ list_plants (some [badLightDoc]) none none none none none none none 50
        = [serializeDoc badLightDoc] := by
  obtain ⟨hname, hl, hw, hc, hsz, hpr, htmin, htmax⟩ := validate_inv raw p h
  refine ⟨?_, ?_, ?_, ?_, ?_, ?_, htmin, htmax, rfl⟩
  · cases p.light <;> simp [lightStr, lightLiterals]
  · cases p.water <;> simp [waterStr, waterLiterals]
  · cases p.care_level <;> simp [careStr, careLiterals]
  · cases p.size <;> simp [sizeStr, sizeLiterals]
  · intro hrs
    cases hsz with
    | inl a => exact a.2
    | inr b =>
        obtain ⟨ss, hss, _⟩ := b
        rw [hrs] at hss
        cases hss
  · intro pr hppr
    cases hpr with
    | inl a => rw [a.2] at hppr; cases hppr
    | inr b =>
        obtain ⟨pr2, _, hge, hpeq⟩ := b
        rw [hpeq] at hppr
        injection hppr with e
        rw [e] at hge
        exact hge

/-- C6 (witness): the invariant theorem at a concrete validated body. -/
theorem c6_invariant_witness :
    validatePlant rawValid = some pValid
    ∧ lightStr pValid.light ∈ lightLiterals :=
  ⟨by decide, (c6_schema_invariant rawValid pValid (by decide)).1⟩

/-- C7: `GET /schema` exposes a property named light restricted to exactly
the three documented literal values low, medium, bright — the same set
schema validation accepts for the light field. -/
theorem c7_schema_light_enum :
    (get_schema.lookup "plant").bind (fun props => props.lookup "light")
      = some (PropSchema.strEnum ["low", "medium", "bright"])
    ∧ ∀ s : String, (parseLight s).isSome = true ↔ s ∈ ["low", "medium", "bright"] := by
  constructor
  · rfl
  · intro s
    simpa [lightLiterals] using parseLight_isSome_iff s

/-- C8: on the datastore path every record returned by `GET /plants` has
its identifier rendered as a string and each of its creation and update
timestamps, when present, rendered as a string (the stored timestamps
being datastore datetimes). -/
theorem c8_serialized_strings (store : List Doc)
    (q light water care_level : Option String) (pet_friendly : Option Bool)
    (size tag : Option String) (limit : Int)
    (h : ∀ d ∈ store, tsOk d = true) :
    ∀ d ∈ list_plants (some store) q light water care_level pet_friendly size tag limit,
      (∃ s, dget d "_id" = some (MVal.mStr s))
      ∧ (∀ v, dget d "created_at" = some v → ∃ s, v = MVal.mStr s)
      ∧ (∀ v, dget d "updated_at" = some v → ∃ s, v = MVal.mStr s) := by
  intro d hd
  unfold list_plants at hd
  rw [List.mem_map] at hd
  obtain ⟨d0, hd0, rfl⟩ := hd
  have hst : d0 ∈ store := by
    unfold get_documents at hd0
    have hmem := List.take_subset _ _ hd0
    exact (List.mem_filter.mp hmem).1
  exact serialize_fields d0 (h d0 hst)

/-- C8 (witness): the theorem at a concrete one-document store. -/
theorem c8_serialized_witness :
    ∃ s, dget (serializeDoc demoDoc) "_id" = some (MVal.mStr s) := by
  have h := c8_serialized_strings [demoDoc] none none none none none none none 50
    (by decide)
  have hm : serializeDoc demoDoc
      ∈ list_plants (some [demoDoc]) none none none none none none none 50 := by
    decide
  exact (h (serializeDoc demoDoc) hm).1

/-- C9: supplying any of the string filter parameters of `GET /plants` as
the empty string gives the same result as omitting it — an empty-string
criterion imposes no constraint on the built predicate. -/
theorem c9_empty_param_noop (dbs : Option (List Doc))
    (q light water care_level : Option String) (pet_friendly : Option Bool)
    (size tag : Option String) (limit : Int) :
    list_plants dbs (some "") light water care_level pet_friendly size tag limit
      = list_plants dbs none light water care_level pet_friendly size tag limit
    ∧ list_plants dbs q (some "") water care_level pet_friendly size tag limit
      = list_plants dbs q none water care_level pet_friendly size tag limit
    ∧ list_plants dbs q light (some "") care_level pet_friendly size tag limit
      = list_plants dbs q light none care_level pet_friendly size tag limit
    ∧ list_plants dbs q light water (some "") pet_friendly size tag limit
      = list_plants dbs q light water none pet_friendly size tag limit
    ∧ list_plants dbs q light water care_level pet_friendly (some "") tag limit
      = list_plants dbs q light water care_level pet_friendly none tag limit
    ∧ list_plants dbs q light water care_level pet_friendly size (some "") limit
      = list_plants dbs q light water care_level pet_friendly size none limit := by
  cases dbs <;> exact ⟨rfl, rfl, rfl, rfl, rfl, rfl⟩

/-- C10: the seed-fallback path is total for every integer limit: it is
Python slicing of the 5-record seed list, hence always a prefix of the
seed list; a limit of at least 5 yields all 5 records, limit 0 the empty
list, and a negative limit the first 5+limit records. -/
theorem c10_seed_slice (q light water care_level : Option String)
    (pet_friendly : Option Bool) (size tag : Option String) (limit : Int) :
    list_plants none q light water care_level pet_friendly size tag limit
      = pySlice _seed_plants limit
    ∧ (∃ k, list_plants none q light water care_level pet_friendly size tag limit
        = _seed_plants.take k)
    ∧ (5 ≤ limit →
        list_plants none q light water care_level pet_friendly size tag limit
          = _seed_plants)
    ∧ (limit = 0 →
        list_plants none q light water care_level pet_friendly size tag limit = [])
    ∧ (limit < 0 →
        list_plants none q light water care_level pet_friendly size tag limit
          = _seed_plants.take (5 + limit).toNat) := by
  refine ⟨rfl, ⟨pySliceCount limit 5, rfl⟩, ?_, ?_, ?_⟩
  · intro h5
    show pySlice _seed_plants limit = _seed_plants
    unfold pySlice pySliceCount
    rw [seed_length, if_pos (by omega : (0 : Int) ≤ limit)]
    exact List.take_of_length_le (by rw [seed_length]; omega)
  · intro h0
    subst h0
    rfl
  · intro hneg
    show pySlice _seed_plants limit = _seed_plants.take (5 + limit).toNat
    unfold pySlice pySliceCount
    rw [seed_length, if_neg (by omega : ¬ (0 : Int) ≤ limit)]
    congr 1
    omega

/-- C10 (witness): the slicing behavior at limits 7, 0 and -1. -/
theorem c10_seed_slice_witness :
    list_plants none none none none none none none none 7 = _seed_plants
    ∧ list_plants none none none none none none none none 0 = []
    ∧ list_plants none none none none none none none none (-1)
        = _seed_plants.take 4 :=
  ⟨(c10_seed_slice none none none none none none none 7).2.2.1 (by norm_num),
   (c10_seed_slice none none none none none none none 0).2.2.2.1 rfl,
   (c10_seed_slice none none none none none none none (-1)).2.2.2.2 (by norm_num)⟩

end Houseplant
